import Mathlib

/-- Rounding of a rational to the nearest integer, half-to-even, as
Python's `round` and `format` do (idealized over ℚ). -/
def rhe (q : ℚ) : ℤ :=
  if q - ⌊q⌋ < 1/2 then ⌊q⌋
  else if 1/2 < q - ⌊q⌋ then ⌊q⌋ + 1
  else if ⌊q⌋ % 2 = 0 then ⌊q⌋ else ⌊q⌋ + 1

/-- Python `round(x, d)`: rounding half-to-even at `d` decimal places. -/
def roundTo (d : ℕ) (q : ℚ) : ℚ := (rhe (q * (10 : ℚ) ^ d) : ℚ) / (10 : ℚ) ^ d

/-- Python `f"{x:.0f}"` on the nonnegative magnitudes produced here. -/
def fmtF0 (q : ℚ) : String := toString (rhe q)

/-- Python `f"{x:.1f}"` on the nonnegative magnitudes produced here. -/
def fmtF1 (q : ℚ) : String :=
  let t := rhe (q * 10)
  (if t < 0 then "-" else "") ++ toString (t.natAbs / 10) ++ "." ++ toString (t.natAbs % 10)

/-- Python `x or d` for an optional float: `d` when `x` is `None` and also
when `x` is the falsy float `0.0`. -/
def pyOr (x : Option ℚ) (d : ℚ) : ℚ :=
  match x with
  | none => d
  | some v => if v = 0 then d else v

/-- Division as Python performs it unguarded: `none` models the
`ZeroDivisionError` raised on a zero denominator. -/
def qdiv? (a b : ℚ) : Option ℚ := if b = 0 then none else some (a / b)

/-! ### Data model (`src/solarspec/models.py`) -/

/-- `SiteData` of `models.py`. -/
structure SiteData where
  address : String
  latitude : ℚ
  longitude : ℚ
  municipality : String := ""
  province : String := ""
  region : String := ""
  climate_zone : String := ""
  seismic_zone : ℤ := 0
deriving Repr, DecidableEq, Inhabited

/-- `SolarData` of `models.py`. -/
structure SolarData where
  annual_irradiation : ℚ
  optimal_tilt : ℚ
  optimal_azimuth : ℚ
  monthly_irradiation : List ℚ := []
  annual_production_per_kwp : ℚ := 0
deriving Repr, DecidableEq, Inhabited

/-- `PVModule` of `models.py`. -/
structure PVModule where
  manufacturer : String
  model : String
  power_wp : ℚ
  efficiency : ℚ
  area_m2 : ℚ
  voc : ℚ := 0
  isc : ℚ := 0
  warranty_years : ℤ := 25
  degradation_rate : ℚ := 1/2
deriving Repr, DecidableEq, Inhabited

/-- `Inverter` of `models.py`. -/
structure Inverter where
  manufacturer : String
  model : String
  power_kw : ℚ
  max_dc_power_kw : ℚ
  efficiency : ℚ
  mppt_channels : ℤ := 1
  warranty_years : ℤ := 10
deriving Repr, DecidableEq, Inhabited

/-- `EconomicAnalysis` of `models.py`. -/
structure EconomicAnalysis where
  total_cost_eur : ℚ
  cost_per_kwp : ℚ
  annual_savings_eur : ℚ
  payback_years : ℚ
  roi_25y_percent : ℚ
  incentive_type : String := ""
  incentive_value_eur : ℚ := 0
  lcoe : ℚ := 0
deriving Repr, DecidableEq, Inhabited

/-- `SystemDesign` of `models.py`. -/
structure SystemDesign where
  site : SiteData
  solar_data : SolarData
  system_size_kwp : ℚ
  num_panels : ℤ
  module : Option PVModule := none
  inverter : Option Inverter := none
  estimated_production_kwh : ℚ
  self_consumption_rate : ℚ := 0
  performance_ratio : ℚ := 4/5
  economics : Option EconomicAnalysis := none
  notes : List String := []
deriving Repr, DecidableEq, Inhabited

/-- `AnalysisResult` of `models.py`. -/
structure AnalysisResult where
  site : SiteData
  solar_data : SolarData
  warnings : List String := []
deriving Repr, DecidableEq, Inhabited

/-- Numeric system defaults of `Settings` (`src/solarspec/config.py`). -/
structure Settings where
  default_electricity_price : ℚ := 1/4
  default_panel_wp : ℚ := 440
  default_panel_area : ℚ := 39/20
  default_cost_per_kwp : ℚ := 1500
  default_performance_ratio : ℚ := 4/5
deriving Repr, DecidableEq, Inhabited

/-- The generic fallback module returned by `_default_module` when the
catalog is empty (`designer.py` lines 35-45). -/
def generic_module : PVModule :=
  { manufacturer := "Generic", model := "Mono PERC 440W", power_wp := 440,
    efficiency := 45/2, area_m2 := 39/20, voc := 83/2, isc := 27/2,
    warranty_years := 25, degradation_rate := 2/5 }

/-- Score of a candidate inverter (`designer.py` line 65). -/
def inverterScore (system_kwp : ℚ) (inv : Inverter) : ℚ :=
  |inv.power_kw - system_kwp| + (if inv.power_kw ≥ system_kwp * (9/10) then 0 else 10)

/-- One step of the selection loop (`designer.py` lines 57-68): skip
candidates whose DC limit is below 80% of the system size, otherwise keep
the strictly better-scoring candidate, ties favouring the incumbent. -/
def selStep (system_kwp : ℚ) (acc : Option (Inverter × ℚ)) (inv : Inverter) :
    Option (Inverter × ℚ) :=
  if inv.max_dc_power_kw < system_kwp * (8/10) then acc
  else
    match acc with
    | none => some (inv, inverterScore system_kwp inv)
    | some best =>
        if inverterScore system_kwp inv < best.2 then some (inv, inverterScore system_kwp inv)
        else acc

/-- Python `max(inverters, key=power_kw)`: the first maximal entry wins
(`designer.py` line 72). -/
def pyMaxByPower (h : Inverter) (t : List Inverter) : Inverter :=
  t.foldl (fun b i => if b.power_kw < i.power_kw then i else b) h

/-- `_select_inverter` (`designer.py` lines 48-76): `none` for an empty
catalog, the best-scoring survivor otherwise, falling back to the largest
inverter when nothing survives the DC filter. -/
def select_inverter (system_kwp : ℚ) (inverters : List Inverter) : Option Inverter :=
  match inverters with
  | [] => none
  | h :: t =>
      match (h :: t).foldl (selStep system_kwp) none with
      | some best => some best.1
      | none => some (pyMaxByPower h t)

/-! ### The design pipeline (`designer.py`, `design_system`, lines 79-229) -/

/-- The inputs of one `design_system` call, module and inverter catalog
injected. -/
structure DesignInputs where
  module : PVModule
  inverters : List Inverter
  solar : SolarData
  annual_consumption_kwh : ℚ
  roof_area_m2 : ℚ
  roof_tilt : Option ℚ := none
  roof_azimuth : Option ℚ := none
  settings : Settings := {}
deriving Repr, DecidableEq, Inhabited

/-- Production per kWp after the PVGIS fallback (`designer.py` lines
112-114): when the reported figure is nonpositive, substitute
`annual_irradiation * default_performance_ratio`. -/
def basis_prod_per_kwp (I : DesignInputs) : ℚ :=
  if I.solar.annual_production_per_kwp ≤ 0 then
    I.solar.annual_irradiation * I.settings.default_performance_ratio
  else I.solar.annual_production_per_kwp

/-- Note emitted with the PVGIS fallback (`designer.py` line 115). -/
def prod_fallback_notes (I : DesignInputs) : List String :=
  if I.solar.annual_production_per_kwp ≤ 0 then
    ["Produzione stimata da irraggiamento (dati PVGIS parziali)"]
  else []

/-- Tilt/azimuth correction factor (`designer.py` lines 118-123).  The
`pyOr` calls reproduce Python's `roof_tilt or optimal_tilt`, under which a
supplied value of `0.0` is falsy and falls back to the optimal value. -/
def correction_factor (I : DesignInputs) : ℚ :=
  if I.roof_tilt.isSome || I.roof_azimuth.isSome then
    max (7/10)
      (1 - |pyOr I.roof_tilt I.solar.optimal_tilt - I.solar.optimal_tilt| * (3/1000)
        - |pyOr I.roof_azimuth I.solar.optimal_azimuth - I.solar.optimal_azimuth| * (2/1000))
  else 1

/-- Orientation-loss note (`designer.py` lines 124-127). -/
def orientation_notes (I : DesignInputs) : List String :=
  if I.roof_tilt.isSome || I.roof_azimuth.isSome then
    if correction_factor I < 85/100 then
      ["Orientamento non ottimale: perdita stimata "
        ++ fmtF0 ((1 - correction_factor I) * 100) ++ "%"]
    else []
  else []

/-- Effective production per kWp (`designer.py` line 129). -/
def effective_prod_per_kwp (I : DesignInputs) : ℚ :=
  basis_prod_per_kwp I * correction_factor I

/-- Target capacity before the roof constraint (`designer.py` line 132);
the code divides by `effective_prod_per_kwp` without a guard. -/
def target_kwp_initial (I : DesignInputs) : ℚ :=
  I.annual_consumption_kwh * (9/10) / effective_prod_per_kwp I

/-- Panels that fit the roof (`designer.py` line 135); the code divides by
`module.area_m2` without a guard. -/
def max_panels_by_area (I : DesignInputs) : ℤ :=
  ⌊I.roof_area_m2 / I.module.area_m2⌋

/-- Capacity bound imposed by the roof (`designer.py` line 136). -/
def max_kwp_by_area (I : DesignInputs) : ℚ :=
  (max_panels_by_area I : ℚ) * I.module.power_wp / 1000

/-- Note emitted when the roof constraint clamps the target
(`designer.py` lines 138-142). -/
def clamp_notes (I : DesignInputs) : List String :=
  if target_kwp_initial I > max_kwp_by_area I then
    ["Area tetto insufficiente per coprire il 90% dei consumi. Ridimensionato da "
      ++ fmtF1 (target_kwp_initial I) ++ " kWp a " ++ fmtF1 (max_kwp_by_area I) ++ " kWp."]
  else []

/-- Target capacity after the roof constraint (`designer.py` lines
138-143). -/
def target_kwp_final (I : DesignInputs) : ℚ :=
  if target_kwp_initial I > max_kwp_by_area I then max_kwp_by_area I else target_kwp_initial I

/-- Panel count (`designer.py` line 146); the code divides by
`module.power_wp` without a guard. -/
def num_panels_count (I : DesignInputs) : ℤ :=
  max 1 ⌈target_kwp_final I * 1000 / I.module.power_wp⌉

/-- Capacity recomputed from the integer panel count (`designer.py` line
147). -/
def actual_kwp (I : DesignInputs) : ℚ :=
  (num_panels_count I : ℚ) * I.module.power_wp / 1000

/-- Estimated annual production (`designer.py` line 150). -/
def estimated_production (I : DesignInputs) : ℚ :=
  actual_kwp I * effective_prod_per_kwp I

/-- Coverage ratio (`designer.py` line 154), guarded to `1.0` when the
consumption is not positive. -/
def coverage_ratio (I : DesignInputs) : ℚ :=
  if I.annual_consumption_kwh > 0 then estimated_production I / I.annual_consumption_kwh
  else 1

/-- Bucketed self-consumption rate (`designer.py` lines 155-162). -/
def self_consumption_rate (I : DesignInputs) : ℚ :=
  if coverage_ratio I ≤ 1/2 then 7/10
  else if coverage_ratio I ≤ 8/10 then 11/20
  else if coverage_ratio I ≤ 1 then 2/5
  else 3/10

/-- The inverter picked for the recomputed capacity (`designer.py` line
165). -/
def chosen_inverter (I : DesignInputs) : Option Inverter :=
  select_inverter (actual_kwp I) I.inverters

/-- Note recording the selected inverter (`designer.py` lines 166-167). -/
def inverter_notes (I : DesignInputs) : List String :=
  match chosen_inverter I with
  | some inv => ["Inverter selezionato: " ++ inv.manufacturer ++ " " ++ inv.model]
  | none => []

/-- All notes the call accumulates before inverter selection, in emission
order. -/
def notes_before_inverter (I : DesignInputs) : List String :=
  prod_fallback_notes I ++ orientation_notes I ++ clamp_notes I

/-- Total installation cost (`designer.py` line 170). -/
def total_cost (I : DesignInputs) : ℚ :=
  actual_kwp I * I.settings.default_cost_per_kwp

/-- Tax deduction before the incentive branch (`designer.py` line 177). -/
def deduction_base (I : DesignInputs) : ℚ := min (total_cost I * (1/2)) 96000

/-- Annual deduction instalment (`designer.py` line 178). -/
def annual_deduction_base (I : DesignInputs) : ℚ := deduction_base I / 10

/-- Outcome of the incentive-scheme branch. -/
structure IncentiveChoice where
  incentive_type : String
  feed_in_tariff : ℚ
  deduction_total : ℚ
  annual_deduction : ℚ
deriving Repr, DecidableEq, Inhabited

/-- Incentive-scheme branch (`designer.py` lines 182-192). -/
def incentive_select (kwp deduction_total annual_deduction : ℚ) : IncentiveChoice :=
  if kwp ≤ 20 then
    { incentive_type := "SSP (Scambio Sul Posto) + Detrazione 50%", feed_in_tariff := 6/100,
      deduction_total := deduction_total, annual_deduction := annual_deduction }
  else if kwp ≤ 500 then
    { incentive_type := "SSP (Scambio Sul Posto) + Detrazione 50%", feed_in_tariff := 4/100,
      deduction_total := deduction_total, annual_deduction := annual_deduction }
  else
    { incentive_type := "RID (Ritiro Dedicato)", feed_in_tariff := 4/100,
      deduction_total := 0, annual_deduction := 0 }

/-- The incentive choice made for this design. -/
def incentive (I : DesignInputs) : IncentiveChoice :=
  incentive_select (actual_kwp I) (deduction_base I) (annual_deduction_base I)

/-- Annual self-consumed production (`designer.py` line 171). -/
def annual_self_consumed (I : DesignInputs) : ℚ :=
  estimated_production I * self_consumption_rate I

/-- Annual exported production (`designer.py` line 172). -/
def annual_exported (I : DesignInputs) : ℚ :=
  estimated_production I * (1 - self_consumption_rate I)

/-- Annual savings (`designer.py` lines 194-198). -/
def annual_savings (I : DesignInputs) : ℚ :=
  annual_self_consumed I * I.settings.default_electricity_price
    + annual_exported I * (incentive I).feed_in_tariff + (incentive I).annual_deduction

/-- Cost after incentives (`designer.py` line 201). -/
def effective_cost (I : DesignInputs) : ℚ := total_cost I - (incentive I).deduction_total

/-- Payback with its explicit sentinel guard (`designer.py` line 202). -/
def payback (I : DesignInputs) : ℚ :=
  if annual_savings I - (incentive I).annual_deduction > 0 then
    effective_cost I / (annual_savings I - (incentive I).annual_deduction)
  else 99

/-- 25-year ROI (`designer.py` line 203); the code divides by
`total_cost` without a guard. -/
def roi_25y (I : DesignInputs) : ℚ :=
  (annual_savings I * 25 - total_cost I) / total_cost I * 100

/-- LCOE with its explicit sentinel guard (`designer.py` line 204). -/
def lcoe (I : DesignInputs) : ℚ :=
  if estimated_production I > 0 then effective_cost I / (estimated_production I * 25) else 0

/-- Every intermediate value of one `design_system` call. -/
structure DesignTrace where
  prod_per_kwp : ℚ
  correction_factor : ℚ
  effective_prod_per_kwp : ℚ
  target_kwp_initial : ℚ
  max_panels_by_area : ℤ
  max_kwp_by_area : ℚ
  target_kwp : ℚ
  num_panels : ℤ
  actual_kwp : ℚ
  estimated_production : ℚ
  coverage_ratio : ℚ
  self_consumption_rate : ℚ
  inverter : Option Inverter
  notes_before_inverter : List String
  total_cost : ℚ
  annual_self_consumed : ℚ
  annual_exported : ℚ
  deduction_total : ℚ
  annual_deduction : ℚ
  incentive_type : String
  feed_in_tariff : ℚ
  annual_savings : ℚ
  effective_cost : ℚ
  payback : ℚ
  roi_25y : ℚ
  lcoe : ℚ
  notes : List String
deriving Inhabited

/-- The trace of one successful `design_system` call, each field computed
by the stage definition translated from the corresponding source line. -/
def mk_trace (I : DesignInputs) : DesignTrace :=
  { prod_per_kwp := basis_prod_per_kwp I
    correction_factor := correction_factor I
    effective_prod_per_kwp := effective_prod_per_kwp I
    target_kwp_initial := target_kwp_initial I
    max_panels_by_area := max_panels_by_area I
    max_kwp_by_area := max_kwp_by_area I
    target_kwp := target_kwp_final I
    num_panels := num_panels_count I
    actual_kwp := actual_kwp I
    estimated_production := estimated_production I
    coverage_ratio := coverage_ratio I
    self_consumption_rate := self_consumption_rate I
    inverter := chosen_inverter I
    notes_before_inverter := notes_before_inverter I
    total_cost := total_cost I
    annual_self_consumed := annual_self_consumed I
    annual_exported := annual_exported I
    deduction_total := (incentive I).deduction_total
    annual_deduction := (incentive I).annual_deduction
    incentive_type := (incentive I).incentive_type
    feed_in_tariff := (incentive I).feed_in_tariff
    annual_savings := annual_savings I
    effective_cost := effective_cost I
    payback := payback I
    roi_25y := roi_25y I
    lcoe := lcoe I
    notes := notes_before_inverter I ++ inverter_notes I }

/-- The computation of `design_system` (`designer.py` lines 107-204).  The
four `qdiv?` steps are, in source order, the four divisions the code
performs without a zero guard: line 132 (by the effective production per
kWp), line 135 (by the module area), line 146 (by the module power) and
line 203 (by the total cost).  A `none` result models the
`ZeroDivisionError` the Python code raises there. -/
def design_trace (I : DesignInputs) : Option DesignTrace :=
  (qdiv? (I.annual_consumption_kwh * (9/10)) (effective_prod_per_kwp I)).bind fun _ =>
  (qdiv? I.roof_area_m2 I.module.area_m2).bind fun _ =>
  (qdiv? (target_kwp_final I * 1000) I.module.power_wp).bind fun _ =>
  (qdiv? (annual_savings I * 25 - total_cost I) (total_cost I)).bind fun _ =>
  some (mk_trace I)

/-- Assembly of the returned `SystemDesign` from the computed trace,
rounding the reported figures exactly as `designer.py` lines 206-229 do. -/
def assemble_design (module : PVModule) (analysis : AnalysisResult) (settings : Settings)
    (t : DesignTrace) : SystemDesign :=
  { site := analysis.site
    solar_data := analysis.solar_data
    system_size_kwp := roundTo 2 t.actual_kwp
    num_panels := t.num_panels
    module := some module
    inverter := t.inverter
    estimated_production_kwh := roundTo 0 t.estimated_production
    self_consumption_rate := roundTo 1 (t.self_consumption_rate * 100)
    performance_ratio := settings.default_performance_ratio
    economics := some
      { total_cost_eur := roundTo 2 t.total_cost
        cost_per_kwp := roundTo 2 settings.default_cost_per_kwp
        annual_savings_eur := roundTo 2 t.annual_savings
        payback_years := roundTo 1 t.payback
        roi_25y_percent := roundTo 1 t.roi_25y
        incentive_type := t.incentive_type
        incentive_value_eur :=
          roundTo 2 (t.deduction_total + t.annual_exported * t.feed_in_tariff * 25)
        lcoe := roundTo 4 t.lcoe }
    notes := t.notes }

/-- `design_system` (`designer.py` lines 79-229): run the pipeline and
assemble the `SystemDesign`. -/
def design_system (module : PVModule) (inverters : List Inverter)
    (analysis : AnalysisResult) (annual_consumption_kwh roof_area_m2 : ℚ)
    (roof_tilt roof_azimuth : Option ℚ) (settings : Settings) : Option SystemDesign :=
  (design_trace
      { module := module, inverters := inverters, solar := analysis.solar_data,
        annual_consumption_kwh := annual_consumption_kwh, roof_area_m2 := roof_area_m2,
        roof_tilt := roof_tilt, roof_azimuth := roof_azimuth, settings := settings }).map
    (assemble_design module analysis settings)

/-! ### Concrete scenarios used by witnesses and counterexamples -/

/-- A site record for the concrete scenarios. -/
def sc_site : SiteData :=
  { address := "Via Roma 1, Milano", latitude := 91/2, longitude := 461/50,
    municipality := "Milano", province := "MI", region := "Lombardia",
    climate_zone := "E", seismic_zone := 3 }

/-- Solar data of the specification's concrete scenario: 1200 kWh/kWp,
optimal tilt 34°, optimal azimuth 0°. -/
def sc_solar : SolarData :=
  { annual_irradiation := 1500, optimal_tilt := 34, optimal_azimuth := 0,
    monthly_irradiation := [], annual_production_per_kwp := 1200 }

/-- The analysis record pairing the scenario site with its solar data. -/
def sc_analysis : AnalysisResult :=
  { site := sc_site, solar_data := sc_solar, warnings := [] }

/-- A small 3 kW inverter. -/
def inv3 : Inverter :=
  { manufacturer := "Huawei", model := "SUN2000-3KTL", power_kw := 3,
    max_dc_power_kw := 9/2, efficiency := 98, mppt_channels := 2, warranty_years := 10 }

/-- A 6 kW inverter. -/
def inv6 : Inverter :=
  { manufacturer := "Huawei", model := "SUN2000-6KTL", power_kw := 6,
    max_dc_power_kw := 9, efficiency := 98, mppt_channels := 2, warranty_years := 10 }

/-- The specification's concrete scenario: consumption 4500 kWh, roof
35 m², generic 440 Wp module, no tilt/azimuth override. -/
def sc_inputs : DesignInputs :=
  { module := generic_module, inverters := [inv3, inv6], solar := sc_solar,
    annual_consumption_kwh := 4500, roof_area_m2 := 35 }

/-- The same scenario on a roof smaller than one module (1 m²). -/
def sc_small : DesignInputs := { sc_inputs with roof_area_m2 := 1 }

/-- The base scenario with zero annual consumption. -/
def sc_zero : DesignInputs := { sc_inputs with annual_consumption_kwh := 0 }

/-- A scenario with negative irradiation data making the savings
negative: production per kWp falls back to `irradiation * PR = -800`. -/
def sc_neg : DesignInputs :=
  { module := generic_module, inverters := [],
    solar := { annual_irradiation := -1000, optimal_tilt := 34, optimal_azimuth := 0,
               monthly_irradiation := [], annual_production_per_kwp := 0 },
    annual_consumption_kwh := 4500, roof_area_m2 := 35 }

/-- A 1000 Wp test module making round capacities easy to hit. -/
def module1000 : PVModule :=
  { manufacturer := "Test", model := "OneKW", power_wp := 1000, efficiency := 21,
    area_m2 := 2 }

/-- Solar data giving 900 kWh/kWp. -/
def solar900 : SolarData :=
  { annual_irradiation := 1500, optimal_tilt := 30, optimal_azimuth := 0,
    monthly_irradiation := [], annual_production_per_kwp := 900 }

/-- A scenario landing exactly on 20.0 kWp. -/
def sc20 : DesignInputs :=
  { module := module1000, inverters := [], solar := solar900,
    annual_consumption_kwh := 20000, roof_area_m2 := 200 }

/-- A scenario landing exactly on 500.0 kWp. -/
def sc500 : DesignInputs :=
  { module := module1000, inverters := [], solar := solar900,
    annual_consumption_kwh := 500000, roof_area_m2 := 1000 }

/-- A 433 Wp module whose capacities have three decimal places. -/
def module433 : PVModule := { generic_module with power_wp := 433 }

/-- The inputs of the C3 counterexample run. -/
def c3_inputs : DesignInputs :=
  { module := module433, inverters := [], solar := sc_solar,
    annual_consumption_kwh := 4500, roof_area_m2 := 35 }

/-- The design returned by the C3 counterexample run. -/
def c3_out : SystemDesign :=
  (design_system module433 [] sc_analysis 4500 35 none none {}).getD default

/-- Analysis data whose production figure and irradiation are both 0. -/
def c1_zero_analysis : AnalysisResult :=
  { site := sc_site,
    solar_data := { annual_irradiation := 0, optimal_tilt := 34, optimal_azimuth := 0,
                    monthly_irradiation := [], annual_production_per_kwp := 0 } }

/-! ### Claim C2 — supplied tilt/azimuth of 0° -/

/-- Correction factor as §4.2 of the specification words it: an absent
tilt or azimuth means the optimal value, while a supplied value —
including 0° — is used as the actual orientation.  Written from the
specification's words for comparison with `correction_factor`. -/
def correction_factor_spec (I : DesignInputs) : ℚ :=
  if I.roof_tilt.isSome || I.roof_azimuth.isSome then
    max (7/10)
      (1 - |I.roof_tilt.getD I.solar.optimal_tilt - I.solar.optimal_tilt| * (3/1000)
        - |I.roof_azimuth.getD I.solar.optimal_azimuth - I.solar.optimal_azimuth| * (2/1000))
  else 1

/-- The base scenario with an explicitly supplied flat roof (tilt 0°). -/
def c2_inputs : DesignInputs := { sc_inputs with roof_tilt := some 0 }

/-- The base scenario shrunk to a 5 m² roof. -/
def sc5_inputs : DesignInputs := { sc_inputs with roof_area_m2 := 5 }

/-! ### Claim C7 — inverter selection -/

/-- Survival of the DC filter (`designer.py` lines 62-63): an inverter is
kept unless `max_dc_power_kw < system_kwp * 0.8`. -/
def survivesB (system_kwp : ℚ) (inv : Inverter) : Bool :=
  if inv.max_dc_power_kw < system_kwp * (8/10) then false else true

/-- The catalog entries surviving the DC filter, in catalog order. -/
def survivors (system_kwp : ℚ) (l : List Inverter) : List Inverter :=
  l.filter (survivesB system_kwp)

/-- The selection step restricted to survivors. -/
def selStepAll (system_kwp : ℚ) (acc : Option (Inverter × ℚ)) (inv : Inverter) :
    Option (Inverter × ℚ) :=
  match acc with
  | none => some (inv, inverterScore system_kwp inv)
  | some best =>
      if inverterScore system_kwp inv < best.2 then some (inv, inverterScore system_kwp inv)
      else acc

/-!
Verification of the SolarSpec PV sizing/design core
(`src/solarspec/generators/designer.py`) against its specification.

The Python floats are modelled as rationals (ℚ).  Every division the code
performs without a guard is modelled through `qdiv?`, which returns `none`
on a zero denominator exactly where CPython would raise
`ZeroDivisionError`; divisions the code performs only under an explicit
positivity guard are modelled with ℚ division under the same guard.
`round(x, d)` and the `:.1f` / `:.0f` format specifiers are modelled as
decimal rounding half-to-even (banker's rounding), idealized over ℚ.
-/

/-! ### Inverter selection (`designer.py`, `_select_inverter`, lines 48-76)

The catalog is an injected list, as the specification directs for the
dynamically loaded product file. -/

/-! ### Characterization of the pipeline's success and failure -/

/-- The pipeline succeeds exactly when none of the four unguarded
denominators is zero, and then the trace is `mk_trace`. -/
lemma design_trace_eq (I : DesignInputs) :
    design_trace I =
      if effective_prod_per_kwp I = 0 then none
      else if I.module.area_m2 = 0 then none
      else if I.module.power_wp = 0 then none
      else if total_cost I = 0 then none
      else some (mk_trace I) := by
  unfold design_trace qdiv?
  by_cases h1 : effective_prod_per_kwp I = 0 <;>
    by_cases h2 : I.module.area_m2 = 0 <;>
      by_cases h3 : I.module.power_wp = 0 <;>
        by_cases h4 : total_cost I = 0 <;>
          simp [h1, h2, h3, h4]

/-- A successful call forces the four denominators nonzero and pins the
trace down to `mk_trace`. -/
lemma design_trace_some {I : DesignInputs} {t : DesignTrace}
    (h : design_trace I = some t) :
    t = mk_trace I ∧ effective_prod_per_kwp I ≠ 0 ∧ I.module.area_m2 ≠ 0 ∧
      I.module.power_wp ≠ 0 ∧ total_cost I ≠ 0 := by
  rw [design_trace_eq] at h
  split_ifs at h with h1 h2 h3 h4 <;> simp_all

/-- Conversely, nonzero denominators make the call succeed. -/
lemma design_trace_of_nonzero {I : DesignInputs}
    (h1 : effective_prod_per_kwp I ≠ 0) (h2 : I.module.area_m2 ≠ 0)
    (h3 : I.module.power_wp ≠ 0) (h4 : total_cost I ≠ 0) :
    design_trace I = some (mk_trace I) := by
  rw [design_trace_eq, if_neg h1, if_neg h2, if_neg h3, if_neg h4]

/-- Evaluation helper for ceilings of concrete rationals. -/
lemma ceil_eval {q : ℚ} {n : ℤ} (h1 : (n : ℚ) - 1 < q) (h2 : q ≤ (n : ℚ)) : ⌈q⌉ = n :=
  Int.ceil_eq_iff.mpr ⟨h1, h2⟩

/-! ### Claim C8 — at least one panel, even on a too-small roof -/

/-- C8: every produced design has `num_panels ≥ 1`; in particular, when
the roof fits zero modules (`max_panels_by_area = 0`, hence a clamped
target of 0 for a physical module) the design proceeds with exactly one
panel instead of zero or an error. -/
theorem c8_min_one_panel (I : DesignInputs) (t : DesignTrace)
    (h : design_trace I = some t) :
    1 ≤ t.num_panels ∧
      (0 < I.module.power_wp → t.max_panels_by_area = 0 → t.num_panels = 1) := by
  obtain ⟨rfl, -, -, -, -⟩ := design_trace_some h
  constructor
  · simpa [mk_trace, num_panels_count] using le_max_left 1 ⌈target_kwp_final I * 1000 / I.module.power_wp⌉
  · intro hp hmpa
    simp only [mk_trace] at hmpa ⊢
    have hmax : max_kwp_by_area I = 0 := by
      simp [max_kwp_by_area, hmpa]
    have htf : target_kwp_final I ≤ 0 := by
      unfold target_kwp_final
      split_ifs with hgt
      · rw [hmax]
      · rw [hmax] at hgt; linarith [not_lt.mp hgt]
    have hq : target_kwp_final I * 1000 / I.module.power_wp ≤ 0 :=
      div_nonpos_of_nonpos_of_nonneg (by linarith) (le_of_lt hp)
    have hceil : ⌈target_kwp_final I * 1000 / I.module.power_wp⌉ ≤ 1 := by
      refine le_trans (Int.ceil_le.mpr ?_) zero_le_one
      exact_mod_cast hq
    simp [num_panels_count, max_eq_left hceil]

/-- Witness for C8 at the 1 m² roof scenario. -/
theorem c8_min_one_panel_witness :
    design_trace sc_small = some (mk_trace sc_small) ∧
      (mk_trace sc_small).max_panels_by_area = 0 ∧ (mk_trace sc_small).num_panels = 1 := by
  have h : design_trace sc_small = some (mk_trace sc_small) := by
    refine design_trace_of_nonzero ?_ ?_ ?_ ?_ <;>
      norm_num [effective_prod_per_kwp, basis_prod_per_kwp, correction_factor,
        total_cost, actual_kwp, num_panels_count, target_kwp_final, target_kwp_initial,
        max_kwp_by_area, max_panels_by_area, sc_small, sc_inputs, sc_solar, generic_module]
  have hmpa : (mk_trace sc_small).max_panels_by_area = 0 := by
    norm_num [mk_trace, max_panels_by_area, sc_small, sc_inputs, generic_module]
  exact ⟨h, hmpa, (c8_min_one_panel sc_small (mk_trace sc_small) h).2 (by norm_num [generic_module, sc_small, sc_inputs]) hmpa⟩

/-! ### Claim C5 — bucketed self-consumption rate -/

/-- C5: the coverage ratio is production over consumption (1.0 when the
consumption is not positive) and the self-consumption rate is the bucket
value with inclusive upper bounds: ≤ 0.5 ↦ 0.70, ≤ 0.8 ↦ 0.55, ≤ 1.0 ↦
0.40, above 1 ↦ 0.30; it always is one of those four values. -/
theorem c5_self_consumption_buckets (I : DesignInputs) (t : DesignTrace)
    (h : design_trace I = some t) :
    (0 < I.annual_consumption_kwh →
        t.coverage_ratio = t.estimated_production / I.annual_consumption_kwh) ∧
    (I.annual_consumption_kwh = 0 → t.coverage_ratio = 1) ∧
    (t.coverage_ratio ≤ 1/2 → t.self_consumption_rate = 7/10) ∧
    (1/2 < t.coverage_ratio → t.coverage_ratio ≤ 8/10 → t.self_consumption_rate = 11/20) ∧
    (8/10 < t.coverage_ratio → t.coverage_ratio ≤ 1 → t.self_consumption_rate = 2/5) ∧
    (1 < t.coverage_ratio → t.self_consumption_rate = 3/10) ∧
    (t.self_consumption_rate = 7/10 ∨ t.self_consumption_rate = 11/20 ∨
      t.self_consumption_rate = 2/5 ∨ t.self_consumption_rate = 3/10) := by
  obtain ⟨rfl, -, -, -, -⟩ := design_trace_some h
  simp only [mk_trace]
  refine ⟨fun hc => ?_, fun hc => ?_, fun h1 => ?_, fun h1 h2 => ?_, fun h1 h2 => ?_,
    fun h1 => ?_, ?_⟩
  · simp [coverage_ratio, hc]
  · simp [coverage_ratio, hc]
  · unfold self_consumption_rate
    rw [if_pos h1]
  · unfold self_consumption_rate
    rw [if_neg (by linarith), if_pos h2]
  · unfold self_consumption_rate
    rw [if_neg (by linarith), if_neg (by linarith), if_pos h2]
  · unfold self_consumption_rate
    rw [if_neg (by linarith), if_neg (by linarith), if_neg (by linarith)]
  · unfold self_consumption_rate
    split_ifs <;> simp

/-- Witness for C5: zero consumption gives coverage 1.0 and the 40%
bucket. -/
theorem c5_self_consumption_buckets_witness :
    design_trace sc_zero = some (mk_trace sc_zero) ∧ sc_zero.annual_consumption_kwh = 0 ∧
      (mk_trace sc_zero).coverage_ratio = 1 ∧ (mk_trace sc_zero).self_consumption_rate = 2/5 := by
  have h : design_trace sc_zero = some (mk_trace sc_zero) := by
    refine design_trace_of_nonzero ?_ ?_ ?_ ?_ <;>
      norm_num [effective_prod_per_kwp, basis_prod_per_kwp, correction_factor,
        total_cost, actual_kwp, num_panels_count, target_kwp_final, target_kwp_initial,
        max_kwp_by_area, max_panels_by_area, sc_zero, sc_inputs, sc_solar, generic_module]
  have hz : sc_zero.annual_consumption_kwh = 0 := rfl
  have hcov := (c5_self_consumption_buckets sc_zero (mk_trace sc_zero) h).2.1 hz
  have hrate := (c5_self_consumption_buckets sc_zero (mk_trace sc_zero) h).2.2.2.2.1
    (by rw [hcov]; norm_num) (by rw [hcov])
  exact ⟨h, hz, hcov, hrate⟩

/-! ### Claim C6 — payback sentinel -/

/-- C6: the payback is `effective_cost / (annual_savings -
annual_deduction)` when that denominator is positive and the sentinel 99
whenever it is ≤ 0; it is always a plain finite value. -/
theorem c6_payback_sentinel (I : DesignInputs) (t : DesignTrace)
    (h : design_trace I = some t) :
    (t.annual_savings - t.annual_deduction ≤ 0 → t.payback = 99) ∧
    (0 < t.annual_savings - t.annual_deduction →
        t.payback = t.effective_cost / (t.annual_savings - t.annual_deduction)) := by
  obtain ⟨rfl, -, -, -, -⟩ := design_trace_some h
  simp only [mk_trace]
  unfold payback
  constructor
  · intro hle
    rw [if_neg (by linarith)]
  · intro hpos
    rw [if_pos (by linarith)]

/-- Witness for C6: a run whose savings net of the deduction are
negative, hence payback 99. -/
theorem c6_payback_sentinel_witness :
    design_trace sc_neg = some (mk_trace sc_neg) ∧
      (mk_trace sc_neg).annual_savings - (mk_trace sc_neg).annual_deduction ≤ 0 ∧
      (mk_trace sc_neg).payback = 99 := by
  have hc : (⌈(-(2025 / 176) : ℚ)⌉ : ℤ) = -11 := ceil_eval (by norm_num) (by norm_num)
  have h : design_trace sc_neg = some (mk_trace sc_neg) := by
    refine design_trace_of_nonzero ?_ ?_ ?_ ?_ <;>
      norm_num [effective_prod_per_kwp, basis_prod_per_kwp, correction_factor,
        total_cost, actual_kwp, num_panels_count, target_kwp_final, target_kwp_initial,
        max_kwp_by_area, max_panels_by_area, sc_neg, generic_module, hc,
        sup_eq_max, max_def, inf_eq_min, min_def]
  have hle : (mk_trace sc_neg).annual_savings - (mk_trace sc_neg).annual_deduction ≤ 0 := by
    norm_num [mk_trace, annual_savings, annual_self_consumed, annual_exported,
      estimated_production, self_consumption_rate, coverage_ratio, incentive,
      incentive_select, deduction_base, annual_deduction_base, total_cost, actual_kwp,
      num_panels_count, target_kwp_final, target_kwp_initial, max_kwp_by_area,
      max_panels_by_area, effective_prod_per_kwp, basis_prod_per_kwp, correction_factor,
      sc_neg, generic_module, hc, sup_eq_max, max_def, inf_eq_min, min_def]
  exact ⟨h, hle, (c6_payback_sentinel sc_neg (mk_trace sc_neg) h).1 hle⟩

/-! ### Claim C4 — incentive-scheme boundaries -/

/-- C4: the incentive branch on the derived capacity has inclusive
boundaries: ≤ 20 kWp ↦ SSP at 0.06 €/kWh with the 50% deduction, 20 <
kWp ≤ 500 ↦ SSP at 0.04 with the deduction, > 500 kWp ↦ RID at 0.04 with
both deduction figures zeroed. -/
theorem c4_incentive_boundaries (I : DesignInputs) (t : DesignTrace)
    (h : design_trace I = some t) :
    (t.actual_kwp ≤ 20 →
        t.incentive_type = "SSP (Scambio Sul Posto) + Detrazione 50%" ∧
        t.feed_in_tariff = 6/100 ∧
        t.deduction_total = min (t.total_cost * (1/2)) 96000 ∧
        t.annual_deduction = min (t.total_cost * (1/2)) 96000 / 10) ∧
    (20 < t.actual_kwp → t.actual_kwp ≤ 500 →
        t.incentive_type = "SSP (Scambio Sul Posto) + Detrazione 50%" ∧
        t.feed_in_tariff = 4/100 ∧
        t.deduction_total = min (t.total_cost * (1/2)) 96000 ∧
        t.annual_deduction = min (t.total_cost * (1/2)) 96000 / 10) ∧
    (500 < t.actual_kwp →
        t.incentive_type = "RID (Ritiro Dedicato)" ∧ t.feed_in_tariff = 4/100 ∧
        t.deduction_total = 0 ∧ t.annual_deduction = 0) := by
  obtain ⟨rfl, -, -, -, -⟩ := design_trace_some h
  simp only [mk_trace]
  unfold incentive incentive_select deduction_base annual_deduction_base
  split_ifs with h1 h2 <;>
    refine ⟨fun hk => ?_, fun hk1 hk2 => ?_, fun hk => ?_⟩ <;>
      first
        | exact ⟨rfl, rfl, rfl, rfl⟩
        | (exfalso; linarith)

/-- Witness for C4: at exactly 20.0 kWp the 0.06 tariff applies; at
exactly 500.0 kWp the deduction (capped at 96000) still applies. -/
theorem c4_incentive_boundaries_witness :
    design_trace sc20 = some (mk_trace sc20) ∧ (mk_trace sc20).actual_kwp = 20 ∧
      (mk_trace sc20).feed_in_tariff = 6/100 ∧
      (mk_trace sc20).incentive_type = "SSP (Scambio Sul Posto) + Detrazione 50%" ∧
      design_trace sc500 = some (mk_trace sc500) ∧ (mk_trace sc500).actual_kwp = 500 ∧
      (mk_trace sc500).feed_in_tariff = 4/100 ∧ (mk_trace sc500).deduction_total = 96000 := by
  have h20 : design_trace sc20 = some (mk_trace sc20) := by
    refine design_trace_of_nonzero ?_ ?_ ?_ ?_ <;>
      norm_num [effective_prod_per_kwp, basis_prod_per_kwp, correction_factor,
        total_cost, actual_kwp, num_panels_count, target_kwp_final, target_kwp_initial,
        max_kwp_by_area, max_panels_by_area, sc20, module1000, solar900]
  have h500 : design_trace sc500 = some (mk_trace sc500) := by
    refine design_trace_of_nonzero ?_ ?_ ?_ ?_ <;>
      norm_num [effective_prod_per_kwp, basis_prod_per_kwp, correction_factor,
        total_cost, actual_kwp, num_panels_count, target_kwp_final, target_kwp_initial,
        max_kwp_by_area, max_panels_by_area, sc500, module1000, solar900]
  have ha20 : (mk_trace sc20).actual_kwp = 20 := by
    norm_num [mk_trace, actual_kwp, num_panels_count, target_kwp_final, target_kwp_initial,
      max_kwp_by_area, max_panels_by_area, effective_prod_per_kwp, basis_prod_per_kwp,
      correction_factor, sc20, module1000, solar900]
  have ha500 : (mk_trace sc500).actual_kwp = 500 := by
    norm_num [mk_trace, actual_kwp, num_panels_count, target_kwp_final, target_kwp_initial,
      max_kwp_by_area, max_panels_by_area, effective_prod_per_kwp, basis_prod_per_kwp,
      correction_factor, sc500, module1000, solar900]
  have htc500 : (mk_trace sc500).total_cost = 750000 := by
    norm_num [mk_trace, total_cost, actual_kwp, num_panels_count, target_kwp_final,
      target_kwp_initial, max_kwp_by_area, max_panels_by_area, effective_prod_per_kwp,
      basis_prod_per_kwp, correction_factor, sc500, module1000, solar900]
  have w20 := (c4_incentive_boundaries sc20 (mk_trace sc20) h20).1 (by rw [ha20])
  have w500 := (c4_incentive_boundaries sc500 (mk_trace sc500) h500).2.1
    (by rw [ha500]; norm_num) (by rw [ha500])
  refine ⟨h20, ha20, w20.2.1, w20.1, h500, ha500, w500.2.1, ?_⟩
  rw [w500.2.2.1, htc500]
  norm_num

/-! ### Claim C3 — reported capacity versus panel count -/

/-- C3 (amended): the reported `system_size_kwp` is `num_panels *
module.power_wp / 1000` rounded to two decimals, as the code rounds the
reported figure; it is exact only when that product has at most two
decimal places. -/
theorem c3_system_size_rounded (module : PVModule) (inverters : List Inverter)
    (analysis : AnalysisResult) (cons roof : ℚ) (rt ra : Option ℚ) (s : Settings)
    (d : SystemDesign)
    (h : design_system module inverters analysis cons roof rt ra s = some d) :
    d.system_size_kwp = roundTo 2 ((d.num_panels : ℚ) * module.power_wp / 1000) := by
  unfold design_system at h
  obtain ⟨t, ht, rfl⟩ := Option.map_eq_some'.mp h
  obtain ⟨rfl, -, -, -, -⟩ := design_trace_some ht
  rfl

/-- The input record `design_system` builds for the C3 counterexample
run is `c3_inputs`. -/
lemma c3_inputs_eq :
    ({ module := module433, inverters := [], solar := sc_analysis.solar_data,
       annual_consumption_kwh := 4500, roof_area_m2 := 35, roof_tilt := none,
       roof_azimuth := none, settings := {} } : DesignInputs) = c3_inputs := rfl

/-- The input record `design_system` builds for the base scenario is
`sc_inputs`. -/
lemma sc_inputs_eq :
    ({ module := generic_module, inverters := [inv3, inv6],
       solar := sc_analysis.solar_data, annual_consumption_kwh := 4500,
       roof_area_m2 := 35, roof_tilt := none, roof_azimuth := none,
       settings := {} } : DesignInputs) = sc_inputs := rfl

/-- C3 counterexample: with a 433 Wp module and 8 panels the reported
capacity is 3.46 kWp while `num_panels * power_wp / 1000` is 3.464 kWp —
the claimed exact equality fails on the rounded reported field. -/
theorem c3_system_size_exact_counterexample :
    design_system module433 [] sc_analysis 4500 35 none none {} = some c3_out ∧
      c3_out.num_panels = 8 ∧ module433.power_wp = 433 ∧
      c3_out.system_size_kwp = 173/50 ∧
      (c3_out.num_panels : ℚ) * module433.power_wp / 1000 = 433/125 ∧
      (173/50 : ℚ) ≠ 433/125 := by
  have hc : (⌈(3375/433 : ℚ)⌉ : ℤ) = 8 := ceil_eval (by norm_num) (by norm_num)
  have htr : design_trace c3_inputs = some (mk_trace c3_inputs) := by
    refine design_trace_of_nonzero ?_ ?_ ?_ ?_ <;>
      norm_num [effective_prod_per_kwp, basis_prod_per_kwp, correction_factor,
        total_cost, actual_kwp, num_panels_count, target_kwp_final, target_kwp_initial,
        max_kwp_by_area, max_panels_by_area, c3_inputs, module433, generic_module,
        sc_solar, hc, sup_eq_max, max_def]
  have hsys : design_system module433 [] sc_analysis 4500 35 none none {} =
      some (assemble_design module433 sc_analysis {} (mk_trace c3_inputs)) := by
    unfold design_system
    rw [c3_inputs_eq, htr]
    rfl
  have hout : c3_out = assemble_design module433 sc_analysis {} (mk_trace c3_inputs) := by
    unfold c3_out
    rw [hsys]
    rfl
  have hnp : (mk_trace c3_inputs).num_panels = 8 := by
    norm_num [mk_trace, num_panels_count, target_kwp_final, target_kwp_initial,
      max_kwp_by_area, max_panels_by_area, effective_prod_per_kwp, basis_prod_per_kwp,
      correction_factor, c3_inputs, module433, generic_module, sc_solar, hc,
      sup_eq_max, max_def]
  have hakwp : (mk_trace c3_inputs).actual_kwp = 433/125 := by
    norm_num [mk_trace, actual_kwp, num_panels_count, target_kwp_final, target_kwp_initial,
      max_kwp_by_area, max_panels_by_area, effective_prod_per_kwp, basis_prod_per_kwp,
      correction_factor, c3_inputs, module433, generic_module, sc_solar, hc,
      sup_eq_max, max_def]
  refine ⟨by rw [hout]; exact hsys, ?_, rfl, ?_, ?_, by norm_num⟩
  · rw [hout]
    exact hnp
  · rw [hout]
    show roundTo 2 ((mk_trace c3_inputs).actual_kwp) = 173/50
    rw [hakwp]
    norm_num [roundTo, rhe]
  · rw [hout]
    show ((mk_trace c3_inputs).num_panels : ℚ) * module433.power_wp / 1000 = 433/125
    rw [hnp]
    norm_num [module433, generic_module]

/-- Witness for the amended C3 at the base scenario with the 440 Wp
module: there the rounding leaves the value unchanged. -/
theorem c3_system_size_rounded_witness :
    (design_system generic_module [inv3, inv6] sc_analysis 4500 35 none none {}).isSome ∧
      ((design_system generic_module [inv3, inv6] sc_analysis 4500 35 none none
          {}).getD default).system_size_kwp =
        roundTo 2 ((((design_system generic_module [inv3, inv6] sc_analysis 4500 35 none none
          {}).getD default).num_panels : ℚ) * generic_module.power_wp / 1000) := by
  have hc : (⌈(675/88 : ℚ)⌉ : ℤ) = 8 := ceil_eval (by norm_num) (by norm_num)
  have htr : design_trace sc_inputs = some (mk_trace sc_inputs) := by
    refine design_trace_of_nonzero ?_ ?_ ?_ ?_ <;>
      norm_num [effective_prod_per_kwp, basis_prod_per_kwp, correction_factor,
        total_cost, actual_kwp, num_panels_count, target_kwp_final, target_kwp_initial,
        max_kwp_by_area, max_panels_by_area, sc_inputs, generic_module, sc_solar, hc,
        sup_eq_max, max_def]
  have hsys : design_system generic_module [inv3, inv6] sc_analysis 4500 35 none none {} =
      some (assemble_design generic_module sc_analysis {} (mk_trace sc_inputs)) := by
    unfold design_system
    rw [sc_inputs_eq, htr]
    rfl
  constructor
  · rw [hsys]
    rfl
  · exact c3_system_size_rounded generic_module [inv3, inv6] sc_analysis 4500 35 none none {}
      _ (by rw [hsys]; rfl)

/-! ### Claim C1 — totality of `design_system` -/

/-- Nonzero denominators at every unguarded division make the pipeline
total. -/
lemma design_trace_isSome_of (I : DesignInputs) (h1 : effective_prod_per_kwp I ≠ 0)
    (h2 : I.module.area_m2 ≠ 0) (h3 : I.module.power_wp ≠ 0)
    (h4 : I.settings.default_cost_per_kwp ≠ 0) : (design_trace I).isSome := by
  have hnp : (0 : ℚ) < (num_panels_count I : ℚ) := by
    have h : (1 : ℤ) ≤ num_panels_count I := by
      unfold num_panels_count
      exact le_max_left _ _
    exact_mod_cast lt_of_lt_of_le zero_lt_one h
  have htc : total_cost I ≠ 0 := by
    unfold total_cost actual_kwp
    exact mul_ne_zero (div_ne_zero (mul_ne_zero (ne_of_gt hnp) h3) (by norm_num)) h4
  rw [design_trace_of_nonzero h1 h2 h3 htc]
  rfl

/-- C1 counterexample: `design_system` does raise on degenerate inputs —
with production and irradiation both 0 the line-132 division fails, and
with `cost_per_kwp = 0` the line-203 ROI division fails; neither hazard
is guarded. -/
theorem c1_unguarded_division_counterexample :
    design_system generic_module [] c1_zero_analysis 4500 35 none none {} = none ∧
      design_system generic_module [] sc_analysis 4500 35 none none
        { default_cost_per_kwp := 0 } = none := by
  constructor
  · unfold design_system
    rw [design_trace_eq, if_pos (by norm_num [effective_prod_per_kwp, basis_prod_per_kwp,
      correction_factor, c1_zero_analysis])]
    rfl
  · unfold design_system
    rw [design_trace_eq,
      if_neg (by norm_num [effective_prod_per_kwp, basis_prod_per_kwp, correction_factor,
        sc_analysis, sc_solar]),
      if_neg (by norm_num [generic_module]),
      if_neg (by norm_num [generic_module]),
      if_pos (by simp [total_cost])]
    rfl

/-- C1 (amended): the consumption, LCOE and payback hazards are indeed
guarded with sentinels, but `design_system` is total only when the
effective production per kWp, the module area, the module power and the
configured cost per kWp are all nonzero; the divisions by the effective
production (line 132) and by the total cost (line 203) are unguarded. -/
theorem c1_design_system_total_amended (module : PVModule) (inverters : List Inverter)
    (analysis : AnalysisResult) (cons roof : ℚ) (rt ra : Option ℚ) (s : Settings)
    (h1 : effective_prod_per_kwp
        { module := module, inverters := inverters, solar := analysis.solar_data,
          annual_consumption_kwh := cons, roof_area_m2 := roof, roof_tilt := rt,
          roof_azimuth := ra, settings := s } ≠ 0)
    (h2 : module.area_m2 ≠ 0) (h3 : module.power_wp ≠ 0)
    (h4 : s.default_cost_per_kwp ≠ 0) :
    (design_system module inverters analysis cons roof rt ra s).isSome := by
  have h := design_trace_isSome_of _ h1 h2 h3 h4
  obtain ⟨t, ht⟩ := Option.isSome_iff_exists.mp h
  unfold design_system
  rw [ht]
  rfl

/-- Witness for the amended C1 at the base scenario. -/
theorem c1_design_system_total_amended_witness :
    (design_system generic_module [inv3, inv6] sc_analysis 4500 35 none none {}).isSome :=
  c1_design_system_total_amended generic_module [inv3, inv6] sc_analysis 4500 35 none none {}
    (by norm_num [effective_prod_per_kwp, basis_prod_per_kwp, correction_factor,
      sc_analysis, sc_solar])
    (by norm_num [generic_module]) (by norm_num [generic_module]) (by norm_num)

/-- C2 exhibit: with a supplied `roof_tilt = 0` and `optimal_tilt = 34`,
the code's Python `or` treats the falsy 0.0 as absent: the computed
factor is 1.0 and no orientation note is emitted, while the
specification's formula gives `tilt_diff = 34` and factor 0.898 (note
threshold 0.85 crossed).  The code contradicts its own docstring, which
reserves the fallback for `None`. -/
theorem c2_zero_tilt_code_bug :
    c2_inputs.roof_tilt = some 0 ∧ c2_inputs.solar.optimal_tilt = 34 ∧
      correction_factor c2_inputs = 1 ∧ orientation_notes c2_inputs = [] ∧
      correction_factor_spec c2_inputs = 449/500 ∧ ((449 : ℚ)/500 ≠ 1) := by
  refine ⟨rfl, rfl, ?_, ?_, ?_, by norm_num⟩
  · norm_num [correction_factor, pyOr, c2_inputs, sc_inputs, sc_solar, max_def]
  · norm_num [orientation_notes, correction_factor, pyOr, c2_inputs, sc_inputs, sc_solar,
      max_def]
  · rw [correction_factor_spec]
    norm_num [c2_inputs, sc_inputs, sc_solar, max_def]

/-! ### Claim C10 — the inverter note -/

/-- C10: the trace's inverter is exactly `_select_inverter` applied to
the recomputed capacity, and the notes list is the pre-inverter notes
followed — exactly when an inverter was found — by the note `"Inverter
selezionato: <manufacturer> <model>"`; a null inverter adds nothing. -/
theorem c10_inverter_note (I : DesignInputs) (t : DesignTrace)
    (h : design_trace I = some t) :
    t.inverter = select_inverter t.actual_kwp I.inverters ∧
      t.notes = t.notes_before_inverter ++
        (match t.inverter with
          | some inv => ["Inverter selezionato: " ++ inv.manufacturer ++ " " ++ inv.model]
          | none => []) ∧
      (t.inverter = none → t.notes = t.notes_before_inverter) := by
  obtain ⟨rfl, -, -, -, -⟩ := design_trace_some h
  refine ⟨rfl, rfl, fun h0 => ?_⟩
  simp only [mk_trace] at h0 ⊢
  simp [inverter_notes, h0]

/-- Witness for C10 at the base scenario: the 6 kW inverter is selected
and its note closes the notes list. -/
theorem c10_inverter_note_witness :
    design_trace sc_inputs = some (mk_trace sc_inputs) ∧
      (mk_trace sc_inputs).inverter = some inv6 ∧
      (mk_trace sc_inputs).notes = (mk_trace sc_inputs).notes_before_inverter ++
        ["Inverter selezionato: " ++ inv6.manufacturer ++ " " ++ inv6.model] := by
  have hc : (⌈(675/88 : ℚ)⌉ : ℤ) = 8 := ceil_eval (by norm_num) (by norm_num)
  have h : design_trace sc_inputs = some (mk_trace sc_inputs) := by
    refine design_trace_of_nonzero ?_ ?_ ?_ ?_ <;>
      norm_num [effective_prod_per_kwp, basis_prod_per_kwp, correction_factor,
        total_cost, actual_kwp, num_panels_count, target_kwp_final, target_kwp_initial,
        max_kwp_by_area, max_panels_by_area, sc_inputs, generic_module, sc_solar, hc,
        sup_eq_max, max_def]
  have hak : actual_kwp sc_inputs = 88/25 := by
    norm_num [actual_kwp, num_panels_count, target_kwp_final, target_kwp_initial,
      max_kwp_by_area, max_panels_by_area, effective_prod_per_kwp, basis_prod_per_kwp,
      correction_factor, sc_inputs, generic_module, sc_solar, hc, sup_eq_max, max_def]
  have hs3 : inverterScore (88/25) inv3 = 263/25 := by
    rw [inverterScore, abs_of_nonpos (by norm_num [inv3])]
    norm_num [inv3]
  have hs6 : inverterScore (88/25) inv6 = 62/25 := by
    rw [inverterScore, abs_of_nonneg (by norm_num [inv6])]
    norm_num [inv6]
  have hdc3 : inv3.max_dc_power_kw = 9/2 := rfl
  have hdc6 : inv6.max_dc_power_kw = 9 := rfl
  have hinv : (mk_trace sc_inputs).inverter = some inv6 := by
    show chosen_inverter sc_inputs = some inv6
    rw [chosen_inverter, hak]
    show select_inverter (88/25) [inv3, inv6] = some inv6
    rw [select_inverter]
    norm_num [List.foldl, selStep, hs3, hs6, hdc3, hdc6]
  have hnotes := (c10_inverter_note sc_inputs (mk_trace sc_inputs) h).2.1
  rw [hinv] at hnotes
  exact ⟨h, hinv, hnotes⟩

/-! ### Claim C9 — monotonicity of the panel count in the roof area -/

/-- The clamped target is the minimum of the unclamped target and the
roof bound. -/
lemma target_kwp_final_eq_min (I : DesignInputs) :
    target_kwp_final I = min (target_kwp_initial I) (max_kwp_by_area I) := by
  unfold target_kwp_final
  rcases le_or_lt (target_kwp_initial I) (max_kwp_by_area I) with h | h
  · rw [if_neg (not_lt.mpr h), min_eq_left h]
  · rw [if_pos h, min_eq_right h.le]

/-- Core monotonicity: enlarging only the roof area never lowers the
panel count (physical module assumed: positive area and power). -/
lemma num_panels_count_mono (IA IB : DesignInputs)
    (hmod : IA.module = IB.module) (hsolar : IA.solar = IB.solar)
    (hcons : IA.annual_consumption_kwh = IB.annual_consumption_kwh)
    (htilt : IA.roof_tilt = IB.roof_tilt) (haz : IA.roof_azimuth = IB.roof_azimuth)
    (hset : IA.settings = IB.settings)
    (hroof : IA.roof_area_m2 ≤ IB.roof_area_m2)
    (harea : 0 < IA.module.area_m2) (hpow : 0 < IA.module.power_wp) :
    num_panels_count IA ≤ num_panels_count IB := by
  have harea' : 0 < IB.module.area_m2 := hmod ▸ harea
  have hpow' : 0 < IB.module.power_wp := hmod ▸ hpow
  have heff : effective_prod_per_kwp IA = effective_prod_per_kwp IB := by
    unfold effective_prod_per_kwp basis_prod_per_kwp correction_factor
    rw [hsolar, hset, htilt, haz]
  have htarget : target_kwp_initial IA = target_kwp_initial IB := by
    unfold target_kwp_initial
    rw [heff, hcons]
  have hmpa : max_panels_by_area IA ≤ max_panels_by_area IB := by
    unfold max_panels_by_area
    rw [hmod]
    exact Int.floor_le_floor ((div_le_div_right harea').mpr hroof)
  have hmaxk : max_kwp_by_area IA ≤ max_kwp_by_area IB := by
    unfold max_kwp_by_area
    rw [hmod]
    exact (div_le_div_right (by norm_num)).mpr
      (mul_le_mul_of_nonneg_right (by exact_mod_cast hmpa) hpow'.le)
  have htf : target_kwp_final IA ≤ target_kwp_final IB := by
    rw [target_kwp_final_eq_min, target_kwp_final_eq_min, htarget]
    exact min_le_min le_rfl hmaxk
  have hq : target_kwp_final IA * 1000 / IA.module.power_wp ≤
      target_kwp_final IB * 1000 / IB.module.power_wp := by
    rw [hmod]
    exact (div_le_div_right hpow').mpr (mul_le_mul_of_nonneg_right htf (by norm_num))
  unfold num_panels_count
  exact max_le_max le_rfl (Int.ceil_mono hq)

/-- C9: among two `design_system` calls differing only in the roof area
(physical module assumed), the smaller roof never yields more panels. -/
theorem c9_roof_monotonicity (module : PVModule) (inverters : List Inverter)
    (analysis : AnalysisResult) (cons : ℚ) (rt ra : Option ℚ) (s : Settings)
    (roofA roofB : ℚ) (dA dB : SystemDesign)
    (hab : roofA ≤ roofB) (harea : 0 < module.area_m2) (hpow : 0 < module.power_wp)
    (hA : design_system module inverters analysis cons roofA rt ra s = some dA)
    (hB : design_system module inverters analysis cons roofB rt ra s = some dB) :
    dA.num_panels ≤ dB.num_panels := by
  unfold design_system at hA hB
  obtain ⟨tA, htA, rfl⟩ := Option.map_eq_some'.mp hA
  obtain ⟨tB, htB, rfl⟩ := Option.map_eq_some'.mp hB
  obtain ⟨rfl, -, -, -, -⟩ := design_trace_some htA
  obtain ⟨rfl, -, -, -, -⟩ := design_trace_some htB
  exact num_panels_count_mono _ _ rfl rfl rfl rfl rfl rfl hab harea hpow

/-- The input record `design_system` builds for the 5 m² run is
`sc5_inputs`. -/
lemma sc5_inputs_eq :
    ({ module := generic_module, inverters := [inv3, inv6],
       solar := sc_analysis.solar_data, annual_consumption_kwh := 4500,
       roof_area_m2 := 5, roof_tilt := none, roof_azimuth := none,
       settings := {} } : DesignInputs) = sc5_inputs := rfl

/-- Witness for C9: the 5 m² roof yields 2 panels, the 35 m² roof 8. -/
theorem c9_roof_monotonicity_witness :
    design_system generic_module [inv3, inv6] sc_analysis 4500 5 none none {} =
        some ((design_system generic_module [inv3, inv6] sc_analysis 4500 5 none none
          {}).getD default) ∧
      design_system generic_module [inv3, inv6] sc_analysis 4500 35 none none {} =
        some ((design_system generic_module [inv3, inv6] sc_analysis 4500 35 none none
          {}).getD default) ∧
      ((design_system generic_module [inv3, inv6] sc_analysis 4500 5 none none
          {}).getD default).num_panels ≤
        ((design_system generic_module [inv3, inv6] sc_analysis 4500 35 none none
          {}).getD default).num_panels := by
  have htrA : design_trace sc5_inputs = some (mk_trace sc5_inputs) := by
    refine design_trace_of_nonzero ?_ ?_ ?_ ?_ <;>
      norm_num [effective_prod_per_kwp, basis_prod_per_kwp, correction_factor,
        total_cost, actual_kwp, num_panels_count, target_kwp_final, target_kwp_initial,
        max_kwp_by_area, max_panels_by_area, sc5_inputs, sc_inputs, generic_module,
        sc_solar, sup_eq_max, max_def]
  have hcB : (⌈(675/88 : ℚ)⌉ : ℤ) = 8 := ceil_eval (by norm_num) (by norm_num)
  have htrB : design_trace sc_inputs = some (mk_trace sc_inputs) := by
    refine design_trace_of_nonzero ?_ ?_ ?_ ?_ <;>
      norm_num [effective_prod_per_kwp, basis_prod_per_kwp, correction_factor,
        total_cost, actual_kwp, num_panels_count, target_kwp_final, target_kwp_initial,
        max_kwp_by_area, max_panels_by_area, sc_inputs, generic_module, sc_solar, hcB,
        sup_eq_max, max_def]
  have hsysA : design_system generic_module [inv3, inv6] sc_analysis 4500 5 none none {} =
      some (assemble_design generic_module sc_analysis {} (mk_trace sc5_inputs)) := by
    unfold design_system
    rw [sc5_inputs_eq, htrA]
    rfl
  have hsysB : design_system generic_module [inv3, inv6] sc_analysis 4500 35 none none {} =
      some (assemble_design generic_module sc_analysis {} (mk_trace sc_inputs)) := by
    unfold design_system
    rw [sc_inputs_eq, htrB]
    rfl
  refine ⟨by rw [hsysA]; rfl, by rw [hsysB]; rfl, ?_⟩
  exact c9_roof_monotonicity generic_module [inv3, inv6] sc_analysis 4500 none none {}
    5 35 _ _ (by norm_num) (by norm_num [generic_module]) (by norm_num [generic_module])
    (by rw [hsysA]; rfl) (by rw [hsysB]; rfl)

/-- `selStep` acts as `selStepAll` on survivors and skips the rest. -/
lemma selStep_eq (k : ℚ) (acc : Option (Inverter × ℚ)) (inv : Inverter) :
    selStep k acc inv = if survivesB k inv then selStepAll k acc inv else acc := by
  unfold selStep selStepAll survivesB
  split_ifs <;> simp_all

/-- Folding the selection loop over the catalog equals folding the
survivor-only step over the filtered catalog. -/
lemma foldl_selStep_filter (k : ℚ) :
    ∀ (l : List Inverter) (acc : Option (Inverter × ℚ)),
      l.foldl (selStep k) acc = (survivors k l).foldl (selStepAll k) acc := by
  intro l
  induction l with
  | nil => intro acc; rfl
  | cons x t ih =>
      intro acc
      rw [List.foldl_cons]
      unfold survivors
      rw [List.filter_cons]
      by_cases hx : survivesB k x
      · rw [if_pos hx, List.foldl_cons, ih (selStep k acc x), selStep_eq, if_pos hx]
        rfl
      · rw [if_neg hx, ih (selStep k acc x), selStep_eq,
          if_neg (by simp_all)]
        rfl

/-- Characterization of the survivor fold: it returns the first
minimum-score element, strictly beating everything before it and weakly
beating everything after it. -/
lemma selFoldAll_spec (k : ℚ) :
    ∀ (l : List Inverter) (b : Inverter),
      ∃ r l₁ l₂,
        l.foldl (selStepAll k) (some (b, inverterScore k b)) =
            some (r, inverterScore k r) ∧
          b :: l = l₁ ++ r :: l₂ ∧
          (∀ x ∈ l₁, inverterScore k r < inverterScore k x) ∧
          (∀ x ∈ l₂, inverterScore k r ≤ inverterScore k x) := by
  intro l
  induction l with
  | nil =>
      intro b
      exact ⟨b, [], [], rfl, rfl, by simp, by simp⟩
  | cons x t ih =>
      intro b
      rw [List.foldl_cons]
      by_cases hx : inverterScore k x < inverterScore k b
      · have hstep : selStepAll k (some (b, inverterScore k b)) x =
            some (x, inverterScore k x) := by
          show (if inverterScore k x < inverterScore k b then some (x, inverterScore k x)
              else some (b, inverterScore k b)) = some (x, inverterScore k x)
          exact if_pos hx
        rw [hstep]
        obtain ⟨r, l₁, l₂, hfold, hsplit, hlt, hle⟩ := ih x
        refine ⟨r, b :: l₁, l₂, hfold, by rw [List.cons_append, ← hsplit], ?_, hle⟩
        intro y hy
        rcases List.mem_cons.mp hy with rfl | hy'
        · have hrx : inverterScore k r ≤ inverterScore k x := by
            cases l₁ with
            | nil =>
                have hxr : x = r := by
                  have h2 := hsplit
                  simp only [List.nil_append] at h2
                  exact (List.cons.injEq _ _ _ _ ▸ h2).1
                rw [hxr]
            | cons a m =>
                have hxa : x = a := by
                  have h2 := hsplit
                  simp only [List.cons_append] at h2
                  exact (List.cons.injEq _ _ _ _ ▸ h2).1
                exact le_of_lt (hlt x (by rw [hxa]; exact List.mem_cons_self _ _))
          exact lt_of_le_of_lt hrx hx
        · exact hlt y hy'
      · have hstep : selStepAll k (some (b, inverterScore k b)) x =
            some (b, inverterScore k b) := by
          show (if inverterScore k x < inverterScore k b then some (x, inverterScore k x)
              else some (b, inverterScore k b)) = some (b, inverterScore k b)
          exact if_neg hx
        rw [hstep]
        obtain ⟨r, l₁, l₂, hfold, hsplit, hlt, hle⟩ := ih b
        cases l₁ with
        | nil =>
            have hbr : b = r ∧ t = l₂ := by
              have h2 := hsplit
              simp only [List.nil_append] at h2
              exact ⟨(List.cons.injEq _ _ _ _ ▸ h2).1, (List.cons.injEq _ _ _ _ ▸ h2).2⟩
            refine ⟨r, [], x :: l₂, hfold, ?_, by simp, ?_⟩
            · simp only [List.nil_append]
              rw [← hbr.1, ← hbr.2]
            · intro y hy
              rcases List.mem_cons.mp hy with rfl | hy'
              · rw [← hbr.1]
                exact not_lt.mp hx
              · exact hle y hy'
        | cons a m =>
            have ham : b = a ∧ t = m ++ r :: l₂ := by
              have h2 := hsplit
              simp only [List.cons_append] at h2
              exact ⟨(List.cons.injEq _ _ _ _ ▸ h2).1, (List.cons.injEq _ _ _ _ ▸ h2).2⟩
            refine ⟨r, b :: x :: m, l₂, hfold, by simp [ham.2], ?_, hle⟩
            have hrb : inverterScore k r < inverterScore k b := by
              apply hlt
              rw [ham.1]
              exact List.mem_cons_self _ _
            intro y hy
            rcases List.mem_cons.mp hy with rfl | hy'
            · exact hrb
            rcases List.mem_cons.mp hy' with rfl | hy''
            · exact lt_of_lt_of_le hrb (not_lt.mp hx)
            · exact hlt y (List.mem_cons_of_mem _ hy'')

/-- The fallback fold keeps the first maximal-power entry: it is in the
list, at least the seed, and at least every element. -/
lemma foldl_max_spec :
    ∀ (t : List Inverter) (b : Inverter),
      t.foldl (fun b i => if b.power_kw < i.power_kw then i else b) b ∈ b :: t ∧
      b.power_kw ≤ (t.foldl (fun b i => if b.power_kw < i.power_kw then i else b) b).power_kw ∧
      ∀ x ∈ t, x.power_kw ≤
        (t.foldl (fun b i => if b.power_kw < i.power_kw then i else b) b).power_kw := by
  intro t
  induction t with
  | nil =>
      intro b
      refine ⟨List.mem_cons_self _ _, le_rfl, ?_⟩
      intro x hx
      simp at hx
  | cons y t ih =>
      intro b
      rw [List.foldl_cons]
      obtain ⟨hmem, hb, hall⟩ := ih (if b.power_kw < y.power_kw then y else b)
      have hby : b.power_kw ≤ (if b.power_kw < y.power_kw then y else b).power_kw := by
        split_ifs with h
        · exact le_of_lt h
        · exact le_rfl
      have hyy : y.power_kw ≤ (if b.power_kw < y.power_kw then y else b).power_kw := by
        split_ifs with h
        · exact le_rfl
        · exact not_lt.mp h
      refine ⟨?_, le_trans hby hb, ?_⟩
      · rcases List.mem_cons.mp hmem with he | ht'
        · rw [he]
          split_ifs
          · exact List.mem_cons_of_mem _ (List.mem_cons_self _ _)
          · exact List.mem_cons_self _ _
        · exact List.mem_cons_of_mem _ (List.mem_cons_of_mem _ ht')
      · intro x hx
        rcases List.mem_cons.mp hx with rfl | hx'
        · exact le_trans hyy hb
        · exact hall x hx'

/-- C7: `_select_inverter` discards the inverters whose DC limit is
below 80% of the system size; among the survivors it returns the first
entry of minimal score `|power - kwp| + (0 if power ≥ 0.9·kwp else 10)`;
with survivors absent but a non-empty catalog it returns a
maximal-power entry; with an empty catalog it returns `none`. -/
theorem c7_inverter_selection (k : ℚ) (l : List Inverter) :
    (l = [] → select_inverter k l = none) ∧
    (survivors k l ≠ [] →
        ∃ r l₁ l₂, select_inverter k l = some r ∧ survivors k l = l₁ ++ r :: l₂ ∧
          (∀ x ∈ l₁, inverterScore k r < inverterScore k x) ∧
          (∀ x ∈ l₂, inverterScore k r ≤ inverterScore k x)) ∧
    (l ≠ [] → survivors k l = [] →
        ∃ r, select_inverter k l = some r ∧ r ∈ l ∧
          ∀ x ∈ l, x.power_kw ≤ r.power_kw) := by
  refine ⟨fun hl => by rw [hl]; rfl, ?_, ?_⟩
  · intro hs
    cases l with
    | nil => exact absurd rfl hs
    | cons h t =>
        cases hsv : survivors k (h :: t) with
        | nil => exact absurd hsv hs
        | cons s srest =>
            obtain ⟨r, l₁, l₂, hfold, hsplit, hlt, hle⟩ := selFoldAll_spec k srest s
            refine ⟨r, l₁, l₂, ?_, hsplit, hlt, hle⟩
            show (match (h :: t).foldl (selStep k) none with
              | some best => some best.1
              | none => some (pyMaxByPower h t)) = some r
            rw [foldl_selStep_filter, hsv, List.foldl_cons,
              show selStepAll k none s = some (s, inverterScore k s) from rfl, hfold]
  · intro hl hs
    cases l with
    | nil => exact absurd rfl hl
    | cons h t =>
        obtain ⟨hmem, hb, hall⟩ := foldl_max_spec t h
        refine ⟨pyMaxByPower h t, ?_, hmem, ?_⟩
        · show (match (h :: t).foldl (selStep k) none with
            | some best => some best.1
            | none => some (pyMaxByPower h t)) = some (pyMaxByPower h t)
          rw [foldl_selStep_filter, hs]
          rfl
        · intro x hx
          rcases List.mem_cons.mp hx with rfl | hx'
          · exact hb
          · exact hall x hx'

/-- Witness for C7 at the specification's test catalog: both inverters
survive for a 5 kWp system, the 6 kW unit scores 1 against 12, and the
empty catalog yields `none`. -/
theorem c7_inverter_selection_witness :
    select_inverter 5 [] = none ∧
      survivors 5 [inv3, inv6] = [inv3, inv6] ∧
      select_inverter 5 [inv3, inv6] = some inv6 := by
  have hempty := (c7_inverter_selection 5 []).1 rfl
  have hdc3 : inv3.max_dc_power_kw = 9/2 := rfl
  have hdc6 : inv6.max_dc_power_kw = 9 := rfl
  have hs : survivors 5 [inv3, inv6] = [inv3, inv6] := by
    norm_num [survivors, List.filter, survivesB, hdc3, hdc6]
  have hs3 : inverterScore 5 inv3 = 12 := by
    rw [inverterScore, abs_of_nonpos (by norm_num [inv3])]
    norm_num [inv3]
  have hs6 : inverterScore 5 inv6 = 1 := by
    rw [inverterScore, abs_of_nonneg (by norm_num [inv6])]
    norm_num [inv6]
  obtain ⟨r, l₁, l₂, hsel, hsplit, hlt, hle⟩ :=
    (c7_inverter_selection 5 [inv3, inv6]).2.1 (by rw [hs]; exact List.cons_ne_nil _ _)
  rw [hs] at hsplit
  have hr : r = inv6 := by
    cases l₁ with
    | nil =>
        simp only [List.nil_append] at hsplit
        have h1 : inv3 = r := (List.cons.injEq _ _ _ _ ▸ hsplit).1
        have h2 : [inv6] = l₂ := (List.cons.injEq _ _ _ _ ▸ hsplit).2
        exfalso
        have hcontra := hle inv6 (by rw [← h2]; exact List.mem_cons_self _ _)
        rw [← h1, hs3, hs6] at hcontra
        norm_num at hcontra
    | cons a m =>
        cases m with
        | nil =>
            simp only [List.cons_append, List.nil_append] at hsplit
            have htail : [inv6] = r :: l₂ := (List.cons.injEq _ _ _ _ ▸ hsplit).2
            exact ((List.cons.injEq _ _ _ _ ▸ htail).1).symm
        | cons c m2 =>
            exfalso
            have hlen := congrArg List.length hsplit
            simp [List.length_append] at hlen
  exact ⟨hempty, hs, hr ▸ hsel⟩
